import Mathlib

/-!
Shallow embedding of the p-monitoring health-check service (src/main.go)
and verification of its specification claims.

The embedding covers the classification logic of `checkComponents`, the
`StatusMap` store (`Update`, `GetAll`), one probe cycle of
`checkComponents` over the configured component list, and the `/health`
aggregate computation of `startHTTPServer`.

Modelling decisions:
- Go strings are Lean `String`s; timestamps are abstract `Nat` values.
- The result of `json.Unmarshal(bodyBytes, &health)` is carried inside the
  probe outcome as `decErr : Option String` (the parse error text, `none`
  when parsing succeeded) together with `parsedStatus : String` (the value
  of the `status` field after unmarshalling, `""` when absent).  The JSON
  library itself is external; its outcome is an input of the classifier.
- Go's `m[k] = v` on a map is modelled on an association list that
  replaces in place or appends; `range` iteration order over a Go map is
  unspecified, so `GetAll` takes the iteration order as an explicit
  argument.
- Calling `decErr.Error()` on a nil error interface panics in Go and
  crashes the process; the classifier therefore returns an `Option`,
  `none` meaning that panic.
-/

namespace PMonitoring

/-- `HealthComponent` from src/main.go: one stored health record. -/
structure HealthComponent where
  name : String
  status : String
  endpointStatus : String
  httpResult : String
  lastChecked : Nat
  error : String
deriving Repr, DecidableEq

/-- `ComponentConfig` from src/main.go: one configured component. -/
structure ComponentConfig where
  name : String
  endpoint : String
deriving Repr, DecidableEq

/-- The outcome of one HTTP GET against a component endpoint, as observed
by `checkComponents`: either a transport error, or a response with status
code, status line (`resp.Status`), body, and the outcome of
`json.Unmarshal` on the body (`decErr`, `parsedStatus`). -/
structure ProbeResult where
  transportError : Option String
  statusCode : Nat
  statusLine : String
  body : String
  decErr : Option String
  parsedStatus : String
deriving Repr, DecidableEq

/-- `trimToOk` from src/main.go: whether a string is "ok" after
lower-casing and trimming whitespace. -/
def trimToOk (s : String) : Bool :=
  s.toLower.trim == "ok"

/-- The four classification outputs computed in the body of the
`checkComponents` loop before the store write: `status`,
`endpointStatus`, `httpResult`, `errMsg`. -/
structure ClassifyOut where
  status : String
  endpointStatus : String
  httpResult : String
  errMsg : String
deriving Repr, DecidableEq

/-- The classification logic of `checkComponents` (src/main.go lines
102-137), one component.  `none` models the Go runtime panic raised by
`decErr.Error()` when `decErr` is the nil interface (reached when the
call succeeded, the body unmarshalled without error, the parsed status
field is not "ok" and the HTTP status code is not 200). -/
def classify (r : ProbeResult) : Option ClassifyOut :=
  match r.transportError with
  | some e => some ⟨"unreachable", "not ok", e, e⟩
  | none =>
    if r.decErr = none ∧ r.parsedStatus = "ok" then
      some ⟨"ok", "ok", r.statusLine, ""⟩
    else if r.statusCode = 200 ∧ (r.body.length = 0 ∨ trimToOk r.body = true) then
      some ⟨"ok", "ok", r.statusLine, ""⟩
    else if r.statusCode = 200 then
      some ⟨"ok", "ok", r.statusLine, ""⟩
    else
      match r.decErr with
      | some e => some ⟨"invalid_response", "not ok", r.statusLine, e⟩
      | none => none

/-- The condition under which the `checkComponents` loop body panics. -/
def panics (r : ProbeResult) : Prop :=
  r.transportError = none ∧ r.decErr = none ∧ r.parsedStatus ≠ "ok" ∧ r.statusCode ≠ 200

instance (r : ProbeResult) : Decidable (panics r) := by
  unfold panics; infer_instance

/-! ## The Status Store (`StatusMap`) -/

/-- The `StatusMap` contents: a Go `map[string]HealthComponent`, modelled
as an association list with unique keys in insertion order. -/
abbrev Store := List (String × HealthComponent)

/-- Look a component name up in the store. -/
def storeLookup (s : Store) (name : String) : Option HealthComponent :=
  (s.find? (fun p => p.1 = name)).map (fun p => p.2)

/-- Go's `s.Components[name] = v`: replace the record for `name` in place,
or append a new entry when the key is absent. -/
def storeUpdate (s : Store) (name : String) (v : HealthComponent) : Store :=
  match s with
  | [] => [(name, v)]
  | p :: rest => if p.1 = name then (name, v) :: rest else p :: storeUpdate rest name v

/-- `StatusMap.Update` from src/main.go lines 55-59: the exported write
path stores a record built only from `name`, `status` and the current
time; every other field is the Go zero value `""`. -/
def Update (s : Store) (name status : String) (now : Nat) : Store :=
  storeUpdate s name ⟨name, status, "", "", now, ""⟩

/-- `StatusMap.GetAll` from src/main.go lines 61-69: collect all records
by ranging over the map.  Go leaves map iteration order unspecified, so
the order is an explicit argument; an order produced by an actual
iteration is a permutation of the stored keys. -/
def GetAll (s : Store) (order : List String) : List HealthComponent :=
  order.filterMap (fun k => storeLookup s k)

/-- A sequence of whole-record writes applied to a store. -/
def applyWrites (s : Store) (ws : List (String × HealthComponent)) : Store :=
  ws.foldl (fun acc w => storeUpdate acc w.1 w.2) s

/-! ## One probe cycle (`checkComponents`) -/

/-- The record written into the store for one component
(src/main.go lines 138-147); `now` abstracts `time.Now()`. -/
def recordOf (name : String) (out : ClassifyOut) (now : Nat) : HealthComponent :=
  ⟨name, out.status, out.endpointStatus, out.httpResult, now, out.errMsg⟩

/-- The structured log event emitted for one probe
(src/main.go lines 148-164). -/
structure LogEntry where
  time : Nat
  component : String
  status : String
  endpointStatus : String
  httpResult : String
  error : String
deriving Repr, DecidableEq

/-- The log event mirroring one component's classification outcome. -/
def logOf (now : Nat) (name : String) (out : ClassifyOut) : LogEntry :=
  ⟨now, name, out.status, out.endpointStatus, out.httpResult, out.errMsg⟩

/-- One probe cycle, `checkComponents` (src/main.go lines 99-166): probe
each configured component in order (`probe` gives the HTTP outcome for a
component), classify, write the record into the store, emit one log
event.  Returns the final store, the emitted log events in order, and
whether the cycle panicked; a panic aborts the cycle at that component,
keeping the store writes and log events made so far.  The `now` argument
abstracts the `time.Now()` calls of the cycle. -/
def checkComponents (comps : List ComponentConfig)
    (probe : ComponentConfig → ProbeResult) (now : Nat) (s : Store) :
    Store × List LogEntry × Bool :=
  match comps with
  | [] => (s, [], false)
  | c :: rest =>
    match classify (probe c) with
    | none => (s, [], true)
    | some out =>
      let s' := storeUpdate s c.name (recordOf c.name out now)
      let r := checkComponents rest probe now s'
      (r.1, logOf now c.name out :: r.2.1, r.2.2)

/-! ## Aggregate status (`startHTTPServer`, `/health` handler) -/

/-- The aggregate status loop of the `/health` handler (src/main.go lines
190-196): start from "ok" and switch to "degraded" at the first record
whose status is not "ok". -/
def aggregateStatus (components : List HealthComponent) : String :=
  match components with
  | [] => "ok"
  | c :: rest => if c.status ≠ "ok" then "degraded" else aggregateStatus rest

/-! ## Concrete sample data used by witnesses and counterexamples -/

/-- A two-component configuration, as in the repository's test file. -/
def demoComps : List ComponentConfig :=
  [⟨"db", "http://db:5432/health"⟩, ⟨"cache", "http://cache:6379/health"⟩]

/-- Probe outcomes where "db" fails at the transport level and "cache"
answers 200 with a JSON-"ok" body. -/
def demoProbe : ComponentConfig → ProbeResult := fun c =>
  if c.name = "db" then
    ⟨some "dial tcp 10.0.0.5:5432: connect: connection refused", 0, "", "", none, ""⟩
  else
    ⟨none, 200, "200 OK", "\x7b\"status\":\"ok\"\x7d", none, "ok"⟩

/-- Probe outcomes where "db" answers 503 with a valid-JSON non-"ok" body
(the combination on which the loop body panics) and "cache" is healthy. -/
def abortProbe : ComponentConfig → ProbeResult := fun c =>
  if c.name = "db" then
    ⟨none, 503, "503 Service Unavailable",
      "\x7b\"status\":\"degraded\"\x7d", none, "degraded"⟩
  else
    ⟨none, 200, "200 OK", "\x7b\"status\":\"ok\"\x7d", none, "ok"⟩

/-- A store holding two records. -/
def demoStore : Store :=
  [("db", ⟨"db", "ok", "ok", "200 OK", 3, ""⟩),
   ("cache", ⟨"cache", "unreachable", "not ok", "connection refused", 3,
      "connection refused"⟩)]

/-- A later whole-record write for "db". -/
def demoWrites : List (String × HealthComponent) :=
  [("db", ⟨"db", "unreachable", "not ok", "timeout", 9, "timeout"⟩)]

/-! ## Classifier panic characterisation -/

theorem classify_eq_none_iff (r : ProbeResult) : classify r = none ↔ panics r := by
  unfold classify panics
  rcases r with ⟨te, code, line, body, de, ps⟩
  cases te <;> simp only []
  · constructor
    · intro h
      by_cases h1 : de = none ∧ ps = "ok"
      · simp [h1] at h
      · rw [if_neg h1] at h
        by_cases h2 : code = 200 ∧ (body.length = 0 ∨ trimToOk body = true)
        · simp [h2] at h
        · rw [if_neg h2] at h
          by_cases h3 : code = 200
          · simp [h3] at h
          · rw [if_neg h3] at h
            cases de with
            | some e => simp at h
            | none =>
              refine ⟨by trivial, by trivial, ?_, h3⟩
              intro hps
              exact h1 ⟨rfl, hps⟩
    · rintro ⟨-, hde, hps, hcode⟩
      subst hde
      rw [if_neg (by simp [hps]), if_neg (by simp [hcode]), if_neg hcode]
  · simp

/-! ## Store lemmas -/

theorem storeLookup_nil (n : String) : storeLookup [] n = none := rfl

theorem storeLookup_cons (p : String × HealthComponent) (rest : Store) (n : String) :
    storeLookup (p :: rest) n = if p.1 = n then some p.2 else storeLookup rest n := by
  by_cases h : p.1 = n
  · simp [storeLookup, List.find?, h]
  · simp [storeLookup, List.find?, h]

theorem storeLookup_update_self (s : Store) (n : String) (v : HealthComponent) :
    storeLookup (storeUpdate s n v) n = some v := by
  induction s with
  | nil => simp [storeUpdate, storeLookup_cons]
  | cons p rest ih =>
    by_cases h : p.1 = n
    · simp [storeUpdate, h, storeLookup_cons]
    · simp [storeUpdate, h, storeLookup_cons, ih]

theorem storeLookup_update_ne (s : Store) (n n' : String) (v : HealthComponent)
    (h : n' ≠ n) : storeLookup (storeUpdate s n v) n' = storeLookup s n' := by
  induction s with
  | nil => simp [storeUpdate, storeLookup_cons, storeLookup_nil, Ne.symm h]
  | cons p rest ih =>
    by_cases hp : p.1 = n
    · subst hp
      simp [storeUpdate, storeLookup_cons, Ne.symm h]
    · simp [storeUpdate, hp, storeLookup_cons, ih]

theorem storeUpdate_keys (s : Store) (n : String) (v : HealthComponent) :
    (storeUpdate s n v).map Prod.fst =
      if n ∈ s.map Prod.fst then s.map Prod.fst else s.map Prod.fst ++ [n] := by
  induction s with
  | nil => simp [storeUpdate]
  | cons p rest ih =>
    by_cases h : p.1 = n
    · simp [storeUpdate, h]
    · simp only [storeUpdate, if_neg h, List.map_cons, List.mem_cons, ih]
      by_cases h2 : n ∈ rest.map Prod.fst
      · simp [h2, Ne.symm h]
      · simp [h2, Ne.symm h]

theorem storeUpdate_keys_nodup (s : Store) (n : String) (v : HealthComponent)
    (h : (s.map Prod.fst).Nodup) : ((storeUpdate s n v).map Prod.fst).Nodup := by
  rw [storeUpdate_keys]
  by_cases hm : n ∈ s.map Prod.fst
  · simpa [hm] using h
  · simp only [hm, if_false]
    rw [List.nodup_append]
    exact ⟨h, List.nodup_singleton n, by simpa using hm⟩

theorem storeLookup_isSome_update (s : Store) (n n' : String) (v : HealthComponent)
    (h : (storeLookup s n').isSome = true) :
    (storeLookup (storeUpdate s n v) n').isSome = true := by
  by_cases hn : n' = n
  · subst hn; rw [storeLookup_update_self]; rfl
  · rwa [storeLookup_update_ne _ _ _ _ hn]

theorem storeLookup_applyWrites_isSome (ws : List (String × HealthComponent))
    (s : Store) (n : String) (h : (storeLookup s n).isSome = true) :
    (storeLookup (applyWrites s ws) n).isSome = true := by
  induction ws generalizing s with
  | nil => exact h
  | cons p rest ih =>
    exact ih _ (storeLookup_isSome_update _ _ _ _ h)

theorem applyWrites_keys_nodup (ws : List (String × HealthComponent)) (s : Store)
    (h : (s.map Prod.fst).Nodup) : ((applyWrites s ws).map Prod.fst).Nodup := by
  induction ws generalizing s with
  | nil => exact h
  | cons p rest ih =>
    exact ih _ (storeUpdate_keys_nodup _ _ _ h)

theorem storeLookup_applyWrites_mem (ws : List (String × HealthComponent))
    (s : Store) (n : String) (w : HealthComponent)
    (h : storeLookup (applyWrites s ws) n = some w) :
    (n, w) ∈ ws ∨ storeLookup s n = some w := by
  induction ws generalizing s with
  | nil => right; exact h
  | cons p rest ih =>
    rcases ih _ h with hmem | hlook
    · left; exact List.mem_cons_of_mem _ hmem
    · by_cases hn : n = p.1
      · subst hn
        rw [storeLookup_update_self] at hlook
        left
        have hw : w = p.2 := (Option.some.inj hlook).symm
        subst hw
        rw [show (p.1, p.2) = p from Prod.mk.eta]
        exact List.mem_cons_self _ _
      · right
        rwa [storeLookup_update_ne _ _ _ _ hn] at hlook

/-! ## Classification lemmas -/

theorem classify_status_cases (r : ProbeResult) (out : ClassifyOut)
    (h : classify r = some out) :
    out.status = "ok" ∨ out.status = "unreachable" ∨ out.status = "invalid_response" := by
  rcases r with ⟨te, code, line, body, de, ps⟩
  cases te with
  | some e =>
    simp only [classify] at h
    cases h
    right; left; rfl
  | none =>
    simp only [classify] at h
    split at h
    · cases h; left; rfl
    · split at h
      · cases h; left; rfl
      · split at h
        · cases h; left; rfl
        · cases de with
          | some e => cases h; right; right; rfl
          | none => cases h

/-! ## Probe cycle lemmas -/

theorem storeLookup_checkComponents_not_mem (comps : List ComponentConfig)
    (probe : ComponentConfig → ProbeResult) (now : Nat) (s : Store) (n : String)
    (h : n ∉ comps.map ComponentConfig.name) :
    storeLookup (checkComponents comps probe now s).1 n = storeLookup s n := by
  induction comps generalizing s with
  | nil => rfl
  | cons c rest ih =>
    simp only [List.map_cons, List.mem_cons] at h
    push_neg at h
    cases hcl : classify (probe c) with
    | none => simp [checkComponents, hcl]
    | some out =>
      simp only [checkComponents, hcl]
      rw [ih _ h.2, storeLookup_update_ne _ _ _ _ h.1]

theorem storeLookup_checkComponents_orig (comps : List ComponentConfig)
    (probe : ComponentConfig → ProbeResult) (now : Nat) (s : Store)
    (n : String) (w : HealthComponent)
    (h : storeLookup (checkComponents comps probe now s).1 n = some w) :
    storeLookup s n = some w ∨
      ∃ c ∈ comps, ∃ out, classify (probe c) = some out ∧ w = recordOf c.name out now := by
  induction comps generalizing s with
  | nil => left; exact h
  | cons c rest ih =>
    cases hcl : classify (probe c) with
    | none =>
      simp only [checkComponents, hcl] at h
      left; exact h
    | some out =>
      simp only [checkComponents, hcl] at h
      rcases ih _ h with h1 | ⟨c', hc', out', hout', hw'⟩
      · by_cases hn : n = c.name
        · subst hn
          rw [storeLookup_update_self] at h1
          right
          exact ⟨c, List.mem_cons_self _ _, out, hcl, (Option.some.inj h1).symm⟩
        · rw [storeLookup_update_ne _ _ _ _ hn] at h1
          left; exact h1
      · right
        exact ⟨c', List.mem_cons_of_mem _ hc', out', hout', hw'⟩

/-! ## Claim C1 -/

/-- C1: a non-200 response whose body is valid JSON with a `status` field
other than "ok" (here HTTP 503 with body `{"status":"degraded"}`, so
`decErr` is the nil interface and the parsed status is "degraded") drives
the `checkComponents` loop into the branch that evaluates
`decErr.Error()` on a nil error: the classifier panics (`classify`
returns `none`) instead of producing an `invalid_response` record, so the
process crashes, contradicting the specification's requirement that
malformed input never crash the process. -/
theorem classify_json_not_ok_non200_panics :
    classify ⟨none, 503, "503 Service Unavailable",
      "\x7b\"status\":\"degraded\"\x7d", none, "degraded"⟩ = none := by decide

/-! ## Claim C2 -/

/-- C2 counterexample: a response with body `{"status":"ok"}` and HTTP
status 503 (non-200) is classified `ok`, not `invalid_response`: the
JSON-"ok" branch of `checkComponents` never consults the status code, so
the claim that such a response classifies as `invalid_response` is false. -/
theorem classify_json_ok_non200_counterexample :
    classify ⟨none, 503, "503 Service Unavailable",
        "\x7b\"status\":\"ok\"\x7d", none, "ok"⟩
      = some ⟨"ok", "ok", "503 Service Unavailable", ""⟩
    ∧ Option.map ClassifyOut.status
        (classify ⟨none, 503, "503 Service Unavailable",
          "\x7b\"status\":\"ok\"\x7d", none, "ok"⟩) ≠ some "invalid_response" := by
  decide

/-- C2 (amended): for every probe response whose body unmarshals without
error to a `status` field equal to "ok", classification yields `ok`
regardless of the HTTP status code — the 200-code acceptance branch is
never consulted for such a response (it is not reached, rather than
falling through to `invalid_response`). -/
theorem classify_json_ok_any_code (r : ProbeResult)
    (ht : r.transportError = none) (hd : r.decErr = none)
    (hp : r.parsedStatus = "ok") :
    classify r = some ⟨"ok", "ok", r.statusLine, ""⟩ := by
  rcases r with ⟨te, code, line, body, de, ps⟩
  simp only at ht hd hp
  subst ht; subst hd; subst hp
  simp [classify]

/-- Witness for C2 (amended) at HTTP 404 with body `{"status":"ok"}`. -/
theorem classify_json_ok_any_code_witness :
    classify ⟨none, 404, "404 Not Found", "\x7b\"status\":\"ok\"\x7d", none, "ok"⟩
      = some ⟨"ok", "ok", "404 Not Found", ""⟩ :=
  classify_json_ok_any_code _ rfl rfl rfl

/-! ## Claim C3 -/

/-- C3: every response with HTTP status code exactly 200 and no transport
error is classified `status=ok`, `endpoint_status=ok` with empty error,
whatever the body and whatever the outcome of JSON unmarshalling. -/
theorem classify_200_always_ok (r : ProbeResult)
    (ht : r.transportError = none) (hc : r.statusCode = 200) :
    classify r = some ⟨"ok", "ok", r.statusLine, ""⟩ := by
  rcases r with ⟨te, code, line, body, de, ps⟩
  simp only at ht hc
  subst ht; subst hc
  simp only [classify]
  by_cases h1 : de = none ∧ ps = "ok"
  · rw [if_pos h1]
  · rw [if_neg h1]
    split
    · rfl
    · rw [if_pos trivial]

/-- Witness for C3: HTTP 200 with an empty, unparseable body (the
unmarshal error is "unexpected end of JSON input") is still `ok`. -/
theorem classify_200_always_ok_witness :
    classify ⟨none, 200, "200 OK", "", some "unexpected end of JSON input", ""⟩
      = some ⟨"ok", "ok", "200 OK", ""⟩ :=
  classify_200_always_ok _ rfl rfl

/-! ## Claim C4 -/

/-- C4 counterexample: on a transport failure the stored
`endpoint_status` is the initializer `"not ok"` (with a space), not the
claimed `"not_ok"`. -/
theorem classify_unreachable_counterexample :
    classify ⟨some "dial tcp 127.0.0.1:9999: connect: connection refused",
        0, "", "", none, ""⟩
      = some ⟨"unreachable", "not ok",
          "dial tcp 127.0.0.1:9999: connect: connection refused",
          "dial tcp 127.0.0.1:9999: connect: connection refused"⟩
    ∧ Option.map ClassifyOut.endpointStatus
        (classify ⟨some "dial tcp 127.0.0.1:9999: connect: connection refused",
          0, "", "", none, ""⟩) ≠ some "not_ok" := by
  decide

/-- C4 (amended): for every probe whose transport call fails with error
text `e`, classification yields `status="unreachable"`,
`endpoint_status="not ok"` (the code's literal, with a space),
`http_result=e` and `error=e`; the error is non-empty whenever the
transport error text is. -/
theorem classify_transport_failure (r : ProbeResult) (e : String)
    (h : r.transportError = some e) :
    classify r = some ⟨"unreachable", "not ok", e, e⟩
    ∧ (e ≠ "" → ∀ out, classify r = some out → out.errMsg ≠ "") := by
  rcases r with ⟨te, code, line, body, de, ps⟩
  simp only at h
  subst h
  refine ⟨rfl, ?_⟩
  intro he out hout
  have : out = ⟨"unreachable", "not ok", e, e⟩ := (Option.some.inj hout).symm
  subst this
  simpa using he

/-- Witness for C4 (amended) at a concrete connection-refused error. -/
theorem classify_transport_failure_witness :
    classify ⟨some "connection refused", 0, "", "", none, ""⟩
      = some ⟨"unreachable", "not ok", "connection refused", "connection refused"⟩
    ∧ ClassifyOut.errMsg
        ⟨"unreachable", "not ok", "connection refused", "connection refused"⟩ ≠ "" :=
  ⟨(classify_transport_failure ⟨some "connection refused", 0, "", "", none, ""⟩
      "connection refused" rfl).1,
   (classify_transport_failure ⟨some "connection refused", 0, "", "", none, ""⟩
      "connection refused" rfl).2 (by decide) _
     (classify_transport_failure ⟨some "connection refused", 0, "", "", none, ""⟩
      "connection refused" rfl).1⟩

/-! ## Claim C5 -/

/-- C5: the `/health` handler's aggregate status is "ok" exactly when
every record's status field is "ok" and "degraded" otherwise; in
particular the empty snapshot aggregates to "ok". -/
theorem aggregateStatus_spec :
    (∀ components : List HealthComponent,
      aggregateStatus components =
        if components.all (fun c => c.status = "ok") then "ok" else "degraded")
    ∧ aggregateStatus [] = "ok" := by
  refine ⟨?_, rfl⟩
  intro comps
  induction comps with
  | nil => simp [aggregateStatus]
  | cons c rest ih =>
    by_cases h : c.status = "ok"
    · simpa [aggregateStatus, h] using ih
    · simp [aggregateStatus, h]

/-! ## Claim C6 -/

/-- C6 counterexample: when the first component's response is a non-200
with a valid-JSON non-"ok" body, the cycle panics and aborts: no log
event is emitted for either component (2 were claimed) and the second
component is never probed, so no record for it is ever stored. -/
theorem checkComponents_cycle_counterexample :
    (checkComponents demoComps abortProbe 0 []).2.1.length ≠ demoComps.length
    ∧ (checkComponents demoComps abortProbe 0 []).2.2 = true
    ∧ storeLookup (checkComponents demoComps abortProbe 0 []).1 "cache" = none := by
  decide

/-- C6 (amended): provided no component's probe outcome is the
panic-inducing combination (non-200 status, body unmarshalling without
error to a non-"ok" status field) and the configured names are pairwise
distinct, one `checkComponents` cycle completes without panicking, emits
exactly one log event per configured component in configured order, each
log event's fields equalling the classification outcome, and stores
exactly one whole record per component matching that same outcome; in
particular a transport failure for one component never aborts the rest of
the cycle (transport failures never satisfy the panic combination). -/
theorem checkComponents_cycle_complete (comps : List ComponentConfig)
    (probe : ComponentConfig → ProbeResult) (now : Nat) (s : Store)
    (hnp : ∀ c ∈ comps, ¬ panics (probe c))
    (hnd : (comps.map ComponentConfig.name).Nodup) :
    (checkComponents comps probe now s).2.2 = false
    ∧ (checkComponents comps probe now s).2.1.length = comps.length
    ∧ ∀ (i : Nat) (c : ComponentConfig), comps[i]? = some c →
        ∃ out, classify (probe c) = some out
          ∧ (checkComponents comps probe now s).2.1[i]? = some (logOf now c.name out)
          ∧ storeLookup (checkComponents comps probe now s).1 c.name
              = some (recordOf c.name out now) := by
  revert hnp hnd
  induction comps generalizing s with
  | nil =>
    intro hnp hnd
    refine ⟨rfl, rfl, ?_⟩
    intro i c hc
    simp at hc
  | cons c rest ih =>
    intro hnp hnd
    have hc0 : ¬ panics (probe c) := hnp c (List.mem_cons_self _ _)
    obtain ⟨out, hout⟩ : ∃ out, classify (probe c) = some out := by
      cases h : classify (probe c) with
      | none => exact absurd ((classify_eq_none_iff _).mp h) hc0
      | some o => exact ⟨o, rfl⟩
    rw [List.map_cons, List.nodup_cons] at hnd
    have hnp' : ∀ c' ∈ rest, ¬ panics (probe c') :=
      fun c' h' => hnp c' (List.mem_cons_of_mem _ h')
    obtain ⟨ih1, ih2, ih3⟩ :=
      ih (storeUpdate s c.name (recordOf c.name out now)) hnp' hnd.2
    simp only [checkComponents, hout]
    refine ⟨ih1, by simpa using ih2, ?_⟩
    intro i c' hc'
    cases i with
    | zero =>
      simp only [List.getElem?_cons_zero] at hc'
      injection hc' with hEq
      subst hEq
      refine ⟨out, hout, by simp, ?_⟩
      rw [storeLookup_checkComponents_not_mem _ _ _ _ _ hnd.1,
          storeLookup_update_self]
    | succ i =>
      simp only [List.getElem?_cons_succ] at hc'
      obtain ⟨out', h1, h2, h3⟩ := ih3 i c' hc'
      exact ⟨out', h1, by simpa using h2, h3⟩

/-- Witness for C6 (amended): the two-component configuration in which
"db" fails at the transport level still yields a complete, panic-free
cycle with one log event per component. -/
theorem checkComponents_cycle_complete_witness :
    (checkComponents demoComps demoProbe 5 []).2.2 = false
    ∧ (checkComponents demoComps demoProbe 5 []).2.1.length = demoComps.length :=
  ⟨(checkComponents_cycle_complete demoComps demoProbe 5 [] (by decide) (by decide)).1,
   (checkComponents_cycle_complete demoComps demoProbe 5 [] (by decide) (by decide)).2.1⟩

/-! ## Claim C7 -/

/-- C7: across any sequence of whole-record writes applied to any store:
a name present before the writes is still present after them (no record
is ever removed); key uniqueness is preserved (at most one record per
component name); and any record readable afterwards is exactly one of the
written records or a record already present — never a mix of fields from
two probes. -/
theorem statusMap_store_invariants (s : Store) (ws : List (String × HealthComponent))
    (n : String) (w : HealthComponent) :
    ((storeLookup s n).isSome = true →
       (storeLookup (applyWrites s ws) n).isSome = true)
    ∧ ((s.map Prod.fst).Nodup → ((applyWrites s ws).map Prod.fst).Nodup)
    ∧ (storeLookup (applyWrites s ws) n = some w →
       (n, w) ∈ ws ∨ storeLookup s n = some w) :=
  ⟨storeLookup_applyWrites_isSome ws s n,
   applyWrites_keys_nodup ws s,
   storeLookup_applyWrites_mem ws s n w⟩

/-- Witness for C7 on a concrete store and a concrete later write. -/
theorem statusMap_store_invariants_witness :
    (storeLookup (applyWrites demoStore demoWrites) "db").isSome = true
    ∧ ((applyWrites demoStore demoWrites).map Prod.fst).Nodup
    ∧ (("db", (⟨"db", "unreachable", "not ok", "timeout", 9, "timeout"⟩ :
          HealthComponent)) ∈ demoWrites
        ∨ storeLookup demoStore "db"
            = some ⟨"db", "unreachable", "not ok", "timeout", 9, "timeout"⟩) :=
  ⟨(statusMap_store_invariants demoStore demoWrites "db"
      ⟨"db", "unreachable", "not ok", "timeout", 9, "timeout"⟩).1 (by decide),
   (statusMap_store_invariants demoStore demoWrites "db"
      ⟨"db", "unreachable", "not ok", "timeout", 9, "timeout"⟩).2.1 (by decide),
   (statusMap_store_invariants demoStore demoWrites "db"
      ⟨"db", "unreachable", "not ok", "timeout", 9, "timeout"⟩).2.2 (by decide)⟩

/-! ## Claim C8 -/

/-- C8 counterexample: two `GetAll` reads of the same two-record store
under two iteration orders — both legitimate orders, being permutations
of the stored keys, and Go leaves map iteration order unspecified —
return lists that are not equal, refuting the claim that the two returned
component lists are always equal. -/
theorem getAll_twice_counterexample :
    List.Perm ["db", "cache"] (demoStore.map Prod.fst)
    ∧ List.Perm ["cache", "db"] (demoStore.map Prod.fst)
    ∧ GetAll demoStore ["db", "cache"] ≠ GetAll demoStore ["cache", "db"] := by
  decide

/-- C8 (amended): two `GetAll` reads of the same store with no
intervening update return the same records up to order: whenever the two
iteration orders are permutations of each other (as any two full
iterations of the same unchanged Go map are), the two returned lists are
permutations of each other. -/
theorem getAll_perm_invariant (s : Store) (o1 o2 : List String)
    (h : List.Perm o1 o2) :
    List.Perm (GetAll s o1) (GetAll s o2) :=
  List.Perm.filterMap _ h

/-- Witness for C8 (amended) on the concrete two-record store. -/
theorem getAll_perm_invariant_witness :
    List.Perm (GetAll demoStore ["db", "cache"]) (GetAll demoStore ["cache", "db"]) :=
  getAll_perm_invariant demoStore ["db", "cache"] ["cache", "db"] (by decide)

/-! ## Claim C9 -/

/-- C9: the exported `StatusMap.Update(name, status)` stores a record
whose `EndpointStatus`, `HTTPResult` and `Error` fields are all the empty
string (Go zero values) and whose `LastChecked` is the write time — it
clears every field other than `Name` and `Status`, unlike the prober's
inline full-record write. -/
theorem update_clears_fields (s : Store) (name status : String) (now : Nat) :
    storeLookup (Update s name status now) name
      = some ⟨name, status, "", "", now, ""⟩ :=
  storeLookup_update_self s name _

/-! ## Claim C10 -/

/-- C10: every record a `checkComponents` cycle stores (starting from the
empty store) has status "ok", "unreachable" or "invalid_response"; the
initializer value "unknown" is never stored, on any input. -/
theorem checkComponents_status_vocabulary (comps : List ComponentConfig)
    (probe : ComponentConfig → ProbeResult) (now : Nat) (n : String)
    (w : HealthComponent)
    (h : storeLookup (checkComponents comps probe now []).1 n = some w) :
    (w.status = "ok" ∨ w.status = "unreachable" ∨ w.status = "invalid_response")
    ∧ w.status ≠ "unknown" := by
  rcases storeLookup_checkComponents_orig comps probe now [] n w h with
    h0 | ⟨c, -, out, hcl, hw⟩
  · rw [storeLookup_nil] at h0
    exact Option.noConfusion h0
  · subst hw
    have hcs := classify_status_cases _ _ hcl
    constructor
    · simpa [recordOf] using hcs
    · rcases hcs with h1 | h1 | h1 <;> simp [recordOf, h1]

/-- Witness for C10 at a one-component cycle answering HTTP 200 with an
empty body. -/
theorem checkComponents_status_vocabulary_witness :
    (HealthComponent.status ⟨"db", "ok", "ok", "200 OK", 7, ""⟩ = "ok"
      ∨ HealthComponent.status ⟨"db", "ok", "ok", "200 OK", 7, ""⟩ = "unreachable"
      ∨ HealthComponent.status ⟨"db", "ok", "ok", "200 OK", 7, ""⟩ = "invalid_response")
    ∧ HealthComponent.status ⟨"db", "ok", "ok", "200 OK", 7, ""⟩ ≠ "unknown" :=
  checkComponents_status_vocabulary [⟨"db", "http://db:5432/health"⟩]
    (fun _ => ⟨none, 200, "200 OK", "", some "unexpected end of JSON input", ""⟩)
    7 "db" ⟨"db", "ok", "ok", "200 OK", 7, ""⟩ (by decide)

end PMonitoring
